import Mathlib

/-!
Verification development for the encrypted sync transport of happy-coder:
a shallow embedding of `src/sources/sync/encryption/encryptor.ts` (the three
batch encryption schemes) and of the `ApiSocket` class in
`src/sources/sync/storageTypes.ts` (RPC shapes, status/reconnect listeners,
event dispatch), together with theorems settling the specification claims.

External primitives (libsodium wrappers, the native AES functions, JSON
serialization) are consumed by the source as capability interfaces; they are
modelled here as explicit function parameters, with their required contracts
stated as hypotheses where a claim depends on them.
-/

namespace Happy

/-! ## Encryption schemes (`src/sources/sync/encryption/encryptor.ts`) -/

/-- The libsodium secret-box capability consumed by `SecretBoxEncryption`.
`encryptSecretBox(item, key)` produces a ciphertext; `decryptSecretBox(item, key)`
returns the plaintext or `null` (here `none`) on failure. -/
structure SecretBoxPrims (V C K : Type) where
  encryptSecretBox : V → K → C
  decryptSecretBox : C → K → Option V

/-- `SecretBoxEncryption.encrypt`: loops over the batch pushing
`encryptSecretBox(item, this.secretKey)` for each item, in order. -/
def SecretBoxEncryption.encrypt {V C K : Type} (P : SecretBoxPrims V C K) (secretKey : K)
    (data : List V) : List C :=
  data.map (fun item => P.encryptSecretBox item secretKey)

/-- `SecretBoxEncryption.decrypt`: loops over the batch pushing
`decryptSecretBox(item, this.secretKey)` for each item, in order. -/
def SecretBoxEncryption.decrypt {V C K : Type} (P : SecretBoxPrims V C K) (secretKey : K)
    (data : List C) : List (Option V) :=
  data.map (fun item => P.decryptSecretBox item secretKey)

/-- The libsodium box capability consumed by `BoxEncryption`:
`crypto_box_seed_keypair(seed)` deterministically derives `(privateKey, publicKey)`;
`encryptBox(item, publicKey)` encrypts, `decryptBox(item, privateKey)` returns the
plaintext or `null` (here `none`) on failure. -/
structure BoxPrims (V C K S : Type) where
  seedKeypair : S → K × K
  encryptBox : V → K → C
  decryptBox : C → K → Option V

/-- The key material a `BoxEncryption` instance holds after construction. -/
structure BoxEncryption (K : Type) where
  privateKey : K
  publicKey : K

/-- The `BoxEncryption` constructor: derives the keypair from the seed via
`crypto_box_seed_keypair` and stores both halves. -/
def BoxEncryption.ofSeed {V C K S : Type} (P : BoxPrims V C K S) (seed : S) :
    BoxEncryption K :=
  { privateKey := (P.seedKeypair seed).1, publicKey := (P.seedKeypair seed).2 }

/-- `BoxEncryption.encrypt`: loops over the batch pushing
`encryptBox(item, this.publicKey)` for each item, in order. -/
def BoxEncryption.encrypt {V C K S : Type} (P : BoxPrims V C K S) (e : BoxEncryption K)
    (data : List V) : List C :=
  data.map (fun item => P.encryptBox item e.publicKey)

/-- `BoxEncryption.decrypt`: loops over the batch pushing
`decryptBox(item, this.privateKey)` for each item, in order. -/
def BoxEncryption.decrypt {V C K S : Type} (P : BoxPrims V C K S) (e : BoxEncryption K)
    (data : List C) : List (Option V) :=
  data.map (fun item => P.decryptBox item e.privateKey)

/-- The capabilities consumed by `AES256Encryption.decrypt`: `encodeBase64` on the
raw ciphertext bytes, the native `decryptAES(ciphertextB64, keyB64)` which either
throws (modelled as `Except.error`) or returns the decrypted string, and
`JSON.parse` which either throws or returns a value. -/
structure AesPrims (V C : Type) where
  encodeBase64 : C → String
  decryptAES : String → String → Except String String
  jsonParse : String → Except String V

/-- The body of the `try` block of `AES256Encryption.decrypt` for one item, with
exceptions left uncaught (`Except.error`): awaits
`decryptAES(encodeBase64(item), secretKeyB64)`; an empty decrypted string (falsy)
pushes `null`; otherwise the result of `JSON.parse` (which may throw) is pushed. -/
def aesDecryptItemTry {V C : Type} (P : AesPrims V C) (secretKeyB64 : String) (item : C) :
    Except String (Option V) :=
  match P.decryptAES (P.encodeBase64 item) secretKeyB64 with
  | .error e => .error e
  | .ok decryptedString =>
      if decryptedString = "" then .ok none
      else
        match P.jsonParse decryptedString with
        | .error e => .error e
        | .ok v => .ok (some v)

/-- One item of `AES256Encryption.decrypt` with the surrounding `catch`: any
exception from the `try` body is converted to a `null` result for that item. -/
def aesDecryptItem {V C : Type} (P : AesPrims V C) (secretKeyB64 : String) (item : C) :
    Option V :=
  match aesDecryptItemTry P secretKeyB64 item with
  | .error _ => none
  | .ok r => r

/-- `AES256Encryption.decrypt`: loops over the batch pushing the per-item
(`try`/`catch`-wrapped) result for each item, in order. -/
def AES256Encryption.decrypt {V C : Type} (P : AesPrims V C) (secretKeyB64 : String)
    (data : List C) : List (Option V) :=
  data.map (aesDecryptItem P secretKeyB64)

/-! ## Socket transport (`ApiSocket` in `src/sources/sync/storageTypes.ts`)

The state is parametric in `V` (the untyped JS payload values, used for both
plaintext and ciphertext since the TS code types them `any`), `L` (identities of
listener callbacks) and `H` (identities of message handler callbacks).
Side effects — wire emissions, listener invocations — are returned as explicit
traces next to the updated state. -/

/-- Connection status, as in the `currentStatus` field. -/
inductive Status where
  | disconnected
  | connecting
  | connected
  | error
  deriving DecidableEq, Repr

/-- The part of the underlying socket.io socket the embedded code reads:
its `recovered` flag (whether session continuity was preserved). -/
structure SocketHandle where
  recovered : Bool
  deriving DecidableEq, Repr

/-- Modelled from the spec: the `ApiEncryption` facade
(`src/sources/sync/apiEncryption.ts`, not present under `src/`) exposes
`encryptRaw`/`decryptRaw`, which serialize a single logical value and run it
through the configured scheme's batch primitive with a batch of size one. Here
it is the pair of single-value functions the socket layer consumes. -/
structure ApiEncryption (V : Type) where
  encryptRaw : V → V
  decryptRaw : V → V

/-- The mutable fields of the `ApiSocket` class that the claims depend on.
`messageHandlers` is the `Map` keyed by event name (insertion-ordered
association list with replace-on-set); the two listener collections are `Set`s
(duplicate-free inserts). -/
structure ApiSocketState (V L H : Type) where
  socket : Option SocketHandle
  encryption : Option (ApiEncryption V)
  messageHandlers : List (String × H)
  reconnectedListeners : List L
  statusListeners : List L
  currentStatus : Status

/-- The wire payload of an `rpc-call` emission: `{method, params}`. -/
structure RpcRequest (V : Type) where
  method : String
  params : V
  deriving DecidableEq, Repr

/-- The server's acknowledgment value: `{ok: true, result}` or
`{ok: false, error?}` (the error string may be absent). -/
inductive RpcResult (V : Type) where
  | ok (result : V)
  | fail (error : Option String)
  deriving DecidableEq, Repr

/-- Outcome of an acknowledged emission under `socket.timeout(...)`: either the
ack arrives or the socket.io timeout fires (rejecting the await). -/
inductive DaemonAck (V : Type) where
  | timeout
  | reply (r : RpcResult V)
  deriving DecidableEq, Repr

/-- How a call can fail, from the caller's point of view: a runtime
null-dereference (`TypeError` from the `!` assertions), an explicitly
`throw new Error(message)`, or the socket.io ack-timeout rejection. -/
inductive JsError where
  | typeError
  | thrown (message : String)
  | ackTimeout
  deriving DecidableEq, Repr

/-- JS `a || b` on an optional string: `undefined`, `null` and the empty string
are falsy and select the fallback. -/
def jsOrElse (e : Option String) (fallback : String) : String :=
  match e with
  | none => fallback
  | some s => if s = "" then fallback else s

/-- `ApiSocket.rpc(sessionId, method, params)`: dereferences `this.socket!`
(TypeError when null), then builds the payload — evaluating
`this.encryption!.encryptRaw(params)` (TypeError when encryption is null) —
emits it under `rpc-call`, and on the ack returns `decryptRaw(result.result)`
when `ok` is true, else throws `Error('RPC call failed')`. The second component
is the list of wire emissions performed. -/
def ApiSocket.rpc {V L H : Type} (st : ApiSocketState V L H)
    (server : RpcRequest V → RpcResult V) (sessionId method : String) (params : V) :
    Except JsError V × List (RpcRequest V) :=
  match st.socket with
  | none => (.error .typeError, [])
  | some _ =>
    match st.encryption with
    | none => (.error .typeError, [])
    | some enc =>
      let req : RpcRequest V :=
        { method := sessionId ++ ":" ++ method, params := enc.encryptRaw params }
      match server req with
      | .ok result => (.ok (enc.decryptRaw result), [req])
      | .fail _ => (.error (.thrown "RPC call failed"), [req])

/-- `ApiSocket.daemonRpc(machineId, method, params)`: throws
`Error('Socket not connected')` when `this.socket` is null, then
`Error('Encryption not initialized')` when `this.encryption` is null, both
before any emission; otherwise emits the encrypted payload under `rpc-call`
with a 15 s ack timeout, returns `decryptRaw(result.result)` on `ok`, throws
`Error(result.error || 'Daemon RPC call failed')` on `ok: false`, and lets the
timeout rejection propagate (the `catch` logs and rethrows). -/
def ApiSocket.daemonRpc {V L H : Type} (st : ApiSocketState V L H)
    (server : RpcRequest V → DaemonAck V) (machineId method : String) (params : V) :
    Except JsError V × List (RpcRequest V) :=
  match st.socket with
  | none => (.error (.thrown "Socket not connected"), [])
  | some _ =>
    match st.encryption with
    | none => (.error (.thrown "Encryption not initialized"), [])
    | some enc =>
      let req : RpcRequest V :=
        { method := machineId ++ ":" ++ method, params := enc.encryptRaw params }
      match server req with
      | .timeout => (.error .ackTimeout, [req])
      | .reply (.ok result) => (.ok (enc.decryptRaw result), [req])
      | .reply (.fail e) =>
          (.error (.thrown (jsOrElse e "Daemon RPC call failed")), [req])

/-- `Set.add`: inserts an element unless already present (insertion order kept). -/
def setInsert {L : Type} [DecidableEq L] (s : List L) (l : L) : List L :=
  if l ∈ s then s else s ++ [l]

/-- `Map.set`: replaces the value at an existing key in place, else appends. -/
def mapSet {H : Type} : List (String × H) → String → H → List (String × H)
  | [], k, v => [(k, v)]
  | (k0, v0) :: rest, k, v =>
      if k0 = k then (k, v) :: rest else (k0, v0) :: mapSet rest k v

/-- `Map.get`: the value at a key, if present. -/
def mapGet {H : Type} : List (String × H) → String → Option H
  | [], _ => none
  | (k0, v0) :: rest, k => if k0 = k then some v0 else mapGet rest k

/-- `ApiSocket.updateStatus(status)`: when the status actually changes, stores
it and invokes every status listener with the new status; otherwise does
nothing. The trace lists the (listener, status) invocations in order. -/
def ApiSocket.updateStatus {V L H : Type} (st : ApiSocketState V L H) (status : Status) :
    ApiSocketState V L H × List (L × Status) :=
  if st.currentStatus ≠ status then
    ({ st with currentStatus := status }, st.statusListeners.map (fun l => (l, status)))
  else
    (st, [])

/-- `ApiSocket.onStatusChange(listener)`: adds the listener to the set, then
immediately invokes it with the current status. -/
def ApiSocket.onStatusChange {V L H : Type} [DecidableEq L] (st : ApiSocketState V L H)
    (l : L) : ApiSocketState V L H × List (L × Status) :=
  ({ st with statusListeners := setInsert st.statusListeners l }, [(l, st.currentStatus)])

/-- `ApiSocket.onReconnected(listener)`: adds the listener to the set. -/
def ApiSocket.onReconnected {V L H : Type} [DecidableEq L] (st : ApiSocketState V L H)
    (l : L) : ApiSocketState V L H :=
  { st with reconnectedListeners := setInsert st.reconnectedListeners l }

/-- `ApiSocket.onMessage(event, handler)`: `Map.set` — the new handler replaces
any previous handler registered for the same event name. -/
def ApiSocket.onMessage {V L H : Type} (st : ApiSocketState V L H) (event : String)
    (handler : H) : ApiSocketState V L H :=
  { st with messageHandlers := mapSet st.messageHandlers event handler }

/-- The `'connect'` handler installed by `setupEventHandlers`: sets status to
`connected` (notifying status listeners), then, unless `this.socket?.recovered`
is true, invokes every reconnected listener. Returns the new state, the status
invocations, and the list of invoked reconnected listeners. -/
def ApiSocket.handleConnect {V L H : Type} (st : ApiSocketState V L H) :
    ApiSocketState V L H × List (L × Status) × List L :=
  let p := ApiSocket.updateStatus st .connected
  let recovered : Bool :=
    match st.socket with
    | some sk => sk.recovered
    | none => false
  if recovered then (p.1, p.2, []) else (p.1, p.2, p.1.reconnectedListeners)

/-- The `onAny` dispatch installed by `setupEventHandlers`: looks up the single
handler registered for the event name and invokes it with the data; an event
with no registered handler is dropped. The result is the list of
(handler, data) invocations. -/
def ApiSocket.dispatchEvent {V L H : Type} (st : ApiSocketState V L H) (event : String)
    (data : V) : List (H × V) :=
  match mapGet st.messageHandlers event with
  | some h => [(h, data)]
  | none => []

/-! ## Concrete fixtures used to instantiate the theorems -/

/-- A concrete secret-box primitive over naturals satisfying the round-trip
contract (encryption adds the key, decryption subtracts it when possible). -/
def sbPrims0 : SecretBoxPrims Nat Nat Nat :=
  { encryptSecretBox := fun v k => v + k
    decryptSecretBox := fun c k => if k ≤ c then some (c - k) else none }

/-- A concrete box primitive over naturals; the keypair derived from a seed is
the seed itself on both halves. -/
def boxPrims0 : BoxPrims Nat Nat Nat Nat :=
  { seedKeypair := fun s => (s, s)
    encryptBox := fun v k => v + k
    decryptBox := fun c k => if k ≤ c then some (c - k) else none }

/-- A concrete AES capability over naturals exercising every per-item outcome:
ciphertext 0 throws in `decryptAES`, 1 decrypts to the empty string, 2 decrypts
to a string that parses to the value 7, and anything else decrypts to a string
that fails to parse. -/
def aesPrims0 : AesPrims Nat Nat :=
  { encodeBase64 := fun c => String.mk (List.replicate c 'a')
    decryptAES := fun s _ =>
      if s = "" then .error "auth tag mismatch"
      else if s = "a" then .ok ""
      else if s = "aa" then .ok "seven"
      else .ok "garbage"
    jsonParse := fun s => if s = "seven" then .ok 7 else .error "unexpected token" }

/-- A concrete encryption facade over naturals whose `encryptRaw` is not the
identity, so ciphertexts are distinguishable from plaintexts. -/
def enc0 : ApiEncryption Nat :=
  { encryptRaw := fun v => v + 1, decryptRaw := fun v => v - 1 }

/-- A fully initialized socket state: socket present (continuity not
preserved), encryption set, two reconnected listeners, one status listener. -/
def st0 : ApiSocketState Nat Nat Nat :=
  { socket := some { recovered := false }
    encryption := some enc0
    messageHandlers := []
    reconnectedListeners := [1, 2]
    statusListeners := [9]
    currentStatus := Status.connected }

/-- `st0` but with session continuity preserved on the socket. -/
def stRecovered : ApiSocketState Nat Nat Nat :=
  { st0 with socket := some { recovered := true } }

/-- `st0` with no socket (before `connect`). -/
def stNoSock : ApiSocketState Nat Nat Nat :=
  { st0 with socket := none }

/-- `st0` with a socket but no encryption context. -/
def stNoEnc : ApiSocketState Nat Nat Nat :=
  { st0 with encryption := none }

/-- A server acknowledging every session RPC with `{ok: true, result: 5}`. -/
def serverOk0 : RpcRequest Nat → RpcResult Nat := fun _ => .ok 5

/-- A server acknowledging every session RPC with `{ok: false, error: "boom"}`. -/
def serverBoom : RpcRequest Nat → RpcResult Nat := fun _ => .fail (some "boom")

/-- A server acknowledging every daemon RPC with `{ok: true, result: 5}`. -/
def dserverOk0 : RpcRequest Nat → DaemonAck Nat := fun _ => .reply (.ok 5)

/-- A server acknowledging every daemon RPC with `{ok: false, error: "boom"}`. -/
def dserverBoom : RpcRequest Nat → DaemonAck Nat := fun _ => .reply (.fail (some "boom"))

/-! ## Helper lemmas -/

/-- Looking up a key right after `Map.set` on that key yields the new value. -/
theorem mapGet_mapSet_self {H : Type} (m : List (String × H)) (k : String) (v : H) :
    mapGet (mapSet m k v) k = some v := by
  induction m with
  | nil => simp [mapSet, mapGet]
  | cons p rest ih =>
      obtain ⟨k0, v0⟩ := p
      by_cases h : k0 = k
      · simp [mapSet, mapGet, h]
      · simp [mapSet, mapGet, h, ih]

/-- One position of a mapped batch where exactly one item fails: the result has
the batch's length, null at the failing index, the mapped value elsewhere. -/
theorem map_single_failure {A B : Type} (f : A → Option B) (cs : List A) (orig : Nat → B)
    (i : Nat) (hi : i < cs.length) (hfail : f (cs.get ⟨i, hi⟩) = none)
    (hok : ∀ j (hj : j < cs.length), j ≠ i → f (cs.get ⟨j, hj⟩) = some (orig j)) :
    (cs.map f).length = cs.length ∧
      (cs.map f)[i]? = some none ∧
      ∀ j (hj : j < cs.length), j ≠ i → (cs.map f)[j]? = some (some (orig j)) := by
  refine ⟨List.length_map cs f, ?_, ?_⟩
  · have h1 : cs[i]? = some (cs.get ⟨i, hi⟩) := List.getElem?_eq_getElem hi
    simp only [List.getElem?_map, h1, Option.map_some']
    exact congrArg some hfail
  · intro j hj hji
    have h1 : cs[j]? = some (cs.get ⟨j, hj⟩) := List.getElem?_eq_getElem hj
    simp only [List.getElem?_map, h1, Option.map_some']
    exact congrArg some (hok j hj hji)

/-- The per-item result of `AES256Encryption.decrypt` is null exactly when the
try-body threw or produced an empty decrypted string, and a value exactly when
the try-body produced that value. -/
theorem aesDecryptItem_char {V C : Type} (P : AesPrims V C) (key : String) (item : C) :
    (aesDecryptItem P key item = none ↔
      ((∃ err, aesDecryptItemTry P key item = .error err) ∨
        aesDecryptItemTry P key item = .ok none)) ∧
    ∀ v, aesDecryptItem P key item = some v ↔ aesDecryptItemTry P key item = .ok (some v) := by
  unfold aesDecryptItem
  rcases h : aesDecryptItemTry P key item with e | r
  · simp
  · rcases r with _ | v <;> simp

/-- Claim C2: for every finite sequence of plaintext items, applying decrypt to
the result of encrypt yields the original sequence (every position holds its
original item), for SecretBoxEncryption with its symmetric key and for
BoxEncryption with the keypair derived from its seed, given each primitive's
per-item round-trip contract. -/
theorem encrypt_decrypt_roundTrip {V C K S : Type}
    (P : SecretBoxPrims V C K) (secretKey : K)
    (hP : ∀ v, P.decryptSecretBox (P.encryptSecretBox v secretKey) secretKey = some v)
    (Q : BoxPrims V C K S) (seed : S)
    (hQ : ∀ v, Q.decryptBox (Q.encryptBox v (Q.seedKeypair seed).2)
      (Q.seedKeypair seed).1 = some v)
    (items : List V) :
    SecretBoxEncryption.decrypt P secretKey (SecretBoxEncryption.encrypt P secretKey items)
      = items.map some ∧
    BoxEncryption.decrypt Q (BoxEncryption.ofSeed Q seed)
        (BoxEncryption.encrypt Q (BoxEncryption.ofSeed Q seed) items)
      = items.map some := by
  constructor
  · simp only [SecretBoxEncryption.decrypt, SecretBoxEncryption.encrypt, List.map_map]
    exact List.map_congr_left (fun v _ => hP v)
  · simp only [BoxEncryption.decrypt, BoxEncryption.encrypt, BoxEncryption.ofSeed,
      List.map_map]
    exact List.map_congr_left (fun v _ => hQ v)

/-- Witness for C2 at concrete primitives, key 5, seed 4 and batch `[1, 2, 3]`. -/
theorem encrypt_decrypt_roundTrip_witness :
    SecretBoxEncryption.decrypt sbPrims0 5 (SecretBoxEncryption.encrypt sbPrims0 5 [1, 2, 3])
      = [1, 2, 3].map some ∧
    BoxEncryption.decrypt boxPrims0 (BoxEncryption.ofSeed boxPrims0 4)
        (BoxEncryption.encrypt boxPrims0 (BoxEncryption.ofSeed boxPrims0 4) [1, 2, 3])
      = [1, 2, 3].map some :=
  encrypt_decrypt_roundTrip sbPrims0 5
    (fun v => by simp [sbPrims0, Nat.le_add_left])
    boxPrims0 4
    (fun v => by simp [boxPrims0, Nat.le_add_left])
    [1, 2, 3]

/-- Claim C5: for every ciphertext batch containing exactly one item whose
decryption fails, decrypt returns a sequence of the batch's length with null
exactly at the failing position and each remaining position holding that item's
original plaintext, for each of the three schemes (secret-box, box,
AES-256-GCM); the failing item does not abort the rest of the batch. -/
theorem decrypt_single_failure {V C K S : Type}
    (P : SecretBoxPrims V C K) (kP : K) (csP : List C) (origP : Nat → V) (iP : Nat)
    (hiP : iP < csP.length)
    (hfailP : P.decryptSecretBox (csP.get ⟨iP, hiP⟩) kP = none)
    (hokP : ∀ j (hj : j < csP.length), j ≠ iP →
      P.decryptSecretBox (csP.get ⟨j, hj⟩) kP = some (origP j))
    (Q : BoxPrims V C K S) (e : BoxEncryption K) (csQ : List C) (origQ : Nat → V) (iQ : Nat)
    (hiQ : iQ < csQ.length)
    (hfailQ : Q.decryptBox (csQ.get ⟨iQ, hiQ⟩) e.privateKey = none)
    (hokQ : ∀ j (hj : j < csQ.length), j ≠ iQ →
      Q.decryptBox (csQ.get ⟨j, hj⟩) e.privateKey = some (origQ j))
    (R : AesPrims V C) (key : String) (csR : List C) (origR : Nat → V) (iR : Nat)
    (hiR : iR < csR.length)
    (hfailR : (∃ err, aesDecryptItemTry R key (csR.get ⟨iR, hiR⟩) = .error err) ∨
      aesDecryptItemTry R key (csR.get ⟨iR, hiR⟩) = .ok none)
    (hokR : ∀ j (hj : j < csR.length), j ≠ iR →
      aesDecryptItemTry R key (csR.get ⟨j, hj⟩) = .ok (some (origR j))) :
    ((SecretBoxEncryption.decrypt P kP csP).length = csP.length ∧
      (SecretBoxEncryption.decrypt P kP csP)[iP]? = some none ∧
      ∀ j (hj : j < csP.length), j ≠ iP →
        (SecretBoxEncryption.decrypt P kP csP)[j]? = some (some (origP j))) ∧
    ((BoxEncryption.decrypt Q e csQ).length = csQ.length ∧
      (BoxEncryption.decrypt Q e csQ)[iQ]? = some none ∧
      ∀ j (hj : j < csQ.length), j ≠ iQ →
        (BoxEncryption.decrypt Q e csQ)[j]? = some (some (origQ j))) ∧
    ((AES256Encryption.decrypt R key csR).length = csR.length ∧
      (AES256Encryption.decrypt R key csR)[iR]? = some none ∧
      ∀ j (hj : j < csR.length), j ≠ iR →
        (AES256Encryption.decrypt R key csR)[j]? = some (some (origR j))) := by
  refine ⟨?_, ?_, ?_⟩
  · exact map_single_failure _ csP origP iP hiP hfailP hokP
  · exact map_single_failure _ csQ origQ iQ hiQ hfailQ hokQ
  · refine map_single_failure _ csR origR iR hiR ?_ ?_
    · exact (aesDecryptItem_char R key _).1.mpr hfailR
    · intro j hj hne
      exact ((aesDecryptItem_char R key _).2 (origR j)).mpr (hokR j hj hne)

/-- Witness for C5: concrete three-item batches, each failing only at index 1,
for all three schemes (lengths preserved, null exactly at index 1). -/
theorem decrypt_single_failure_witness :
    ((SecretBoxEncryption.decrypt sbPrims0 5 [15, 3, 35]).length = [15, 3, 35].length ∧
      (SecretBoxEncryption.decrypt sbPrims0 5 [15, 3, 35])[1]? = some none) ∧
    ((BoxEncryption.decrypt boxPrims0 (BoxEncryption.ofSeed boxPrims0 4) [14, 2, 34]).length
        = [14, 2, 34].length ∧
      (BoxEncryption.decrypt boxPrims0 (BoxEncryption.ofSeed boxPrims0 4) [14, 2, 34])[1]?
        = some none) ∧
    ((AES256Encryption.decrypt aesPrims0 "k" [2, 0, 2]).length = [2, 0, 2].length ∧
      (AES256Encryption.decrypt aesPrims0 "k" [2, 0, 2])[1]? = some none) := by
  have h := decrypt_single_failure
    sbPrims0 5 [15, 3, 35] (fun j => if j = 0 then 10 else 30) 1 (by decide)
    (by decide)
    (by
      intro j hj hne
      have hj3 : j < 3 := by simpa using hj
      interval_cases j
      · rfl
      · exact absurd rfl hne
      · rfl)
    boxPrims0 (BoxEncryption.ofSeed boxPrims0 4) [14, 2, 34]
    (fun j => if j = 0 then 10 else 30) 1 (by decide)
    (by decide)
    (by
      intro j hj hne
      have hj3 : j < 3 := by simpa using hj
      interval_cases j
      · rfl
      · exact absurd rfl hne
      · rfl)
    aesPrims0 "k" [2, 0, 2] (fun _ => 7) 1 (by decide)
    (Or.inl ⟨"auth tag mismatch", rfl⟩)
    (by
      intro j hj hne
      have hj3 : j < 3 := by simpa using hj
      interval_cases j
      · rfl
      · exact absurd rfl hne
      · rfl)
  exact ⟨⟨h.1.1, h.1.2.1⟩, ⟨h.2.1.1, h.2.1.2.1⟩, ⟨h.2.2.1, h.2.2.2.1⟩⟩

/-- Claim C6: `AES256Encryption.decrypt` never propagates an exception out of
the batch call: it yields a result at every position of every input batch, a
position is null exactly when that item's try-body threw (malformed
ciphertext, auth-tag mismatch, JSON parse failure) or produced an empty
decrypted string, and holds a value exactly when the try-body produced it. -/
theorem aes_decrypt_no_throw {V C : Type} (P : AesPrims V C) (key : String)
    (data : List C) :
    (AES256Encryption.decrypt P key data).length = data.length ∧
    ∀ i (hi : i < data.length),
      ((AES256Encryption.decrypt P key data)[i]? = some none ↔
        ((∃ err, aesDecryptItemTry P key (data.get ⟨i, hi⟩) = .error err) ∨
          aesDecryptItemTry P key (data.get ⟨i, hi⟩) = .ok none)) ∧
      ∀ v, ((AES256Encryption.decrypt P key data)[i]? = some (some v) ↔
        aesDecryptItemTry P key (data.get ⟨i, hi⟩) = .ok (some v)) := by
  refine ⟨List.length_map data _, ?_⟩
  intro i hi
  have h1 : data[i]? = some (data.get ⟨i, hi⟩) := List.getElem?_eq_getElem hi
  constructor
  · simp only [AES256Encryption.decrypt, List.getElem?_map, h1, Option.map_some',
      Option.some.injEq]
    exact (aesDecryptItem_char P key _).1
  · intro v
    simp only [AES256Encryption.decrypt, List.getElem?_map, h1, Option.map_some',
      Option.some.injEq]
    exact (aesDecryptItem_char P key _).2 v

/-- Witness for C6 at the concrete AES capability and the batch `[0, 1, 2, 3]`
(item 0 throws, item 1 decrypts to an empty string, item 2 parses to 7,
item 3 fails JSON parsing). -/
theorem aes_decrypt_no_throw_witness :
    (AES256Encryption.decrypt aesPrims0 "k" [0, 1, 2, 3]).length = [0, 1, 2, 3].length ∧
    ((AES256Encryption.decrypt aesPrims0 "k" [0, 1, 2, 3])[2]? = some (some 7) ↔
      aesDecryptItemTry aesPrims0 "k" ([0, 1, 2, 3].get ⟨2, by decide⟩) = .ok (some 7)) :=
  ⟨(aes_decrypt_no_throw aesPrims0 "k" [0, 1, 2, 3]).1,
    ((aes_decrypt_no_throw aesPrims0 "k" [0, 1, 2, 3]).2 2 (by decide)).2 7⟩

/-- Claim C1: whenever `rpc` or `daemonRpc` reaches the wire, the single
payload emitted under `rpc-call` carries the caller's params only as
`encryptRaw(params)` (under the scope-prefixed method name); whenever
encryption actually changes the value, no emitted payload carries the
plaintext params. -/
theorem rpc_wire_encrypted {V L H : Type} (st : ApiSocketState V L H)
    (sk : SocketHandle) (enc : ApiEncryption V)
    (hs : st.socket = some sk) (he : st.encryption = some enc)
    (server : RpcRequest V → RpcResult V) (dserver : RpcRequest V → DaemonAck V)
    (sessionId machineId method : String) (params : V) :
    (ApiSocket.rpc st server sessionId method params).2
      = [{ method := sessionId ++ ":" ++ method, params := enc.encryptRaw params }] ∧
    (ApiSocket.daemonRpc st dserver machineId method params).2
      = [{ method := machineId ++ ":" ++ method, params := enc.encryptRaw params }] ∧
    (enc.encryptRaw params ≠ params →
      ∀ req ∈ (ApiSocket.rpc st server sessionId method params).2
          ++ (ApiSocket.daemonRpc st dserver machineId method params).2,
        req.params ≠ params) := by
  have hrpc : (ApiSocket.rpc st server sessionId method params).2
      = [{ method := sessionId ++ ":" ++ method, params := enc.encryptRaw params }] := by
    simp only [ApiSocket.rpc, hs, he]
    cases server { method := sessionId ++ ":" ++ method, params := enc.encryptRaw params } <;>
      rfl
  have hdrpc : (ApiSocket.daemonRpc st dserver machineId method params).2
      = [{ method := machineId ++ ":" ++ method, params := enc.encryptRaw params }] := by
    simp only [ApiSocket.daemonRpc, hs, he]
    cases dserver { method := machineId ++ ":" ++ method, params := enc.encryptRaw params } with
    | timeout => rfl
    | reply r => cases r <;> rfl
  refine ⟨hrpc, hdrpc, ?_⟩
  intro hne req hreq
  rw [hrpc, hdrpc] at hreq
  rcases List.mem_append.mp hreq with h | h <;>
    (rw [List.mem_singleton] at h; subst h; exact hne)

/-- Witness for C1 at the fully initialized concrete state. -/
theorem rpc_wire_encrypted_witness :
    (ApiSocket.rpc st0 serverOk0 "s1" "ping" 41).2
      = [{ method := "s1" ++ ":" ++ "ping", params := enc0.encryptRaw 41 }] :=
  (rpc_wire_encrypted st0 { recovered := false } enc0 rfl rfl serverOk0 dserverOk0
    "s1" "m1" "ping" 41).1

/-- Counterexample to claim C3: the server answers the session RPC with
`{ok: false, error: "boom"}`, yet the call fails with the fixed message
"RPC call failed" — the present server-supplied error string is not carried. -/
theorem rpc_error_string_cex :
    (ApiSocket.rpc st0 serverBoom "s1" "ping" 41).1
      = .error (.thrown "RPC call failed") ∧
    JsError.thrown "RPC call failed" ≠ JsError.thrown "boom" :=
  ⟨rfl, by decide⟩

/-- Claim C3 amended: on an `{ok: false}` response, `daemonRpc` fails with the
server-supplied error string when present and nonempty and with the generic
"Daemon RPC call failed" otherwise, while the session `rpc` shape always fails
with the generic "RPC call failed", discarding any server error string. -/
theorem rpc_error_strings {V L H : Type} (st : ApiSocketState V L H)
    (sk : SocketHandle) (enc : ApiEncryption V)
    (hs : st.socket = some sk) (he : st.encryption = some enc)
    (e : Option String) (sessionId machineId method : String) (params : V) :
    (ApiSocket.rpc st (fun _ => .fail e) sessionId method params).1
      = .error (.thrown "RPC call failed") ∧
    (∀ s, e = some s → s ≠ "" →
      (ApiSocket.daemonRpc st (fun _ => .reply (.fail e)) machineId method params).1
        = .error (.thrown s)) ∧
    ((e = none ∨ e = some "") →
      (ApiSocket.daemonRpc st (fun _ => .reply (.fail e)) machineId method params).1
        = .error (.thrown "Daemon RPC call failed")) := by
  refine ⟨?_, ?_, ?_⟩
  · simp [ApiSocket.rpc, hs, he]
  · intro s hse hne
    subst hse
    simp [ApiSocket.daemonRpc, hs, he, jsOrElse, hne]
  · rintro (rfl | rfl) <;> simp [ApiSocket.daemonRpc, hs, he, jsOrElse]

/-- Witness for the amended C3: the session shape discards "boom" while the
daemon shape propagates it. -/
theorem rpc_error_strings_witness :
    (ApiSocket.rpc st0 serverBoom "s1" "ping" 41).1
      = .error (.thrown "RPC call failed") ∧
    (ApiSocket.daemonRpc st0 dserverBoom "m1" "spawn" 41).1
      = .error (.thrown "boom") :=
  ⟨(rpc_error_strings st0 { recovered := false } enc0 rfl rfl (some "boom")
      "s1" "m1" "ping" 41).1,
    (rpc_error_strings st0 { recovered := false } enc0 rfl rfl (some "boom")
      "s1" "m1" "spawn" 41).2.1 "boom" rfl (by decide)⟩

/-- Claim C4: `daemonRpc` fails fast before any wire emission: with no socket
it throws "Socket not connected"; with a socket but no encryption context it
throws the distinct "Encryption not initialized"; both with zero emissions. -/
theorem daemonRpc_preconditions {V L H : Type} (st : ApiSocketState V L H)
    (server : RpcRequest V → DaemonAck V) (machineId method : String) (params : V) :
    (st.socket = none →
      ApiSocket.daemonRpc st server machineId method params
        = (.error (.thrown "Socket not connected"), [])) ∧
    (∀ sk, st.socket = some sk → st.encryption = none →
      ApiSocket.daemonRpc st server machineId method params
        = (.error (.thrown "Encryption not initialized"), [])) := by
  constructor
  · intro h
    simp [ApiSocket.daemonRpc, h]
  · intro sk h he
    simp [ApiSocket.daemonRpc, h, he]

/-- Witness for C4 at the concrete not-connected and not-initialized states. -/
theorem daemonRpc_preconditions_witness :
    ApiSocket.daemonRpc stNoSock dserverOk0 "m1" "spawn" 41
      = (.error (.thrown "Socket not connected"), []) ∧
    ApiSocket.daemonRpc stNoEnc dserverOk0 "m1" "spawn" 41
      = (.error (.thrown "Encryption not initialized"), []) :=
  ⟨(daemonRpc_preconditions stNoSock dserverOk0 "m1" "spawn" 41).1 rfl,
    (daemonRpc_preconditions stNoEnc dserverOk0 "m1" "spawn" 41).2
      { recovered := false } rfl rfl⟩

/-- Claim C7: on the `'connect'` event, when the socket's `recovered` flag is
false every registered reconnected listener is invoked, each exactly once (the
listener set is duplicate-free); when continuity was preserved
(`recovered` true) none is invoked. -/
theorem handleConnect_reconnected {V L H : Type} [DecidableEq L]
    (st : ApiSocketState V L H) (sk : SocketHandle)
    (hs : st.socket = some sk) (hnd : st.reconnectedListeners.Nodup) :
    (sk.recovered = false →
      (ApiSocket.handleConnect st).2.2 = st.reconnectedListeners ∧
      ∀ l ∈ st.reconnectedListeners, ((ApiSocket.handleConnect st).2.2).count l = 1) ∧
    (sk.recovered = true → (ApiSocket.handleConnect st).2.2 = []) := by
  constructor
  · intro hrec
    have hlist : (ApiSocket.handleConnect st).2.2 = st.reconnectedListeners := by
      by_cases hc : st.currentStatus ≠ Status.connected
      · simp [ApiSocket.handleConnect, ApiSocket.updateStatus, hs, hrec, hc]
      · simp [ApiSocket.handleConnect, ApiSocket.updateStatus, hs, hrec, hc]
    refine ⟨hlist, ?_⟩
    intro l hl
    rw [hlist]
    exact List.count_eq_one_of_mem hnd hl
  · intro hrec
    simp [ApiSocket.handleConnect, ApiSocket.updateStatus, hs, hrec]

/-- Witness for C7: with continuity not preserved both concrete listeners fire
(listener 1 exactly once); with continuity preserved none fires. -/
theorem handleConnect_reconnected_witness :
    (ApiSocket.handleConnect st0).2.2 = st0.reconnectedListeners ∧
    ((ApiSocket.handleConnect st0).2.2).count 1 = 1 ∧
    (ApiSocket.handleConnect stRecovered).2.2 = [] :=
  ⟨((handleConnect_reconnected st0 { recovered := false } rfl (by decide)).1 rfl).1,
    ((handleConnect_reconnected st0 { recovered := false } rfl (by decide)).1 rfl).2
      1 (by decide),
    (handleConnect_reconnected stRecovered { recovered := true } rfl (by decide)).2 rfl⟩

/-- Claim C8: `onStatusChange` invokes the new listener synchronously at
registration, exactly once, with the current status (whatever it is,
`connected` included), and this invocation comes before anything a subsequent
status transition delivers. -/
theorem onStatusChange_replays_current {V L H : Type} [DecidableEq L]
    (st : ApiSocketState V L H) (l : L) (s : Status) :
    (ApiSocket.onStatusChange st l).2 = [(l, st.currentStatus)] ∧
    ((ApiSocket.onStatusChange st l).2
        ++ (ApiSocket.updateStatus (ApiSocket.onStatusChange st l).1 s).2).head?
      = some (l, st.currentStatus) :=
  ⟨rfl, rfl⟩

/-- Claim C9: after `onMessage(e, h1)` then `onMessage(e, h2)`, an inbound
event named `e` invokes only `h2` and never `h1` (last registration wins, one
handler per event name), and an inbound event with no registered handler is
dropped with no invocation at all. -/
theorem onMessage_last_wins {V L H : Type} (st : ApiSocketState V L H)
    (e : String) (h1 h2 : H) (d : V) (hne : h1 ≠ h2) :
    ApiSocket.dispatchEvent (ApiSocket.onMessage (ApiSocket.onMessage st e h1) e h2) e d
      = [(h2, d)] ∧
    (h1, d) ∉
      ApiSocket.dispatchEvent (ApiSocket.onMessage (ApiSocket.onMessage st e h1) e h2) e d ∧
    ∀ e2, mapGet st.messageHandlers e2 = none → ApiSocket.dispatchEvent st e2 d = [] := by
  have hget := mapGet_mapSet_self (mapSet st.messageHandlers e h1) e h2
  have hdisp : ApiSocket.dispatchEvent
      (ApiSocket.onMessage (ApiSocket.onMessage st e h1) e h2) e d = [(h2, d)] := by
    simp [ApiSocket.dispatchEvent, ApiSocket.onMessage, hget]
  refine ⟨hdisp, ?_, ?_⟩
  · rw [hdisp]
    simp [hne]
  · intro e2 hnone
    simp [ApiSocket.dispatchEvent, hnone]

/-- Witness for C9: registering handlers 1 then 2 for "update" dispatches an
inbound "update" event only to handler 2. -/
theorem onMessage_last_wins_witness :
    ApiSocket.dispatchEvent
        (ApiSocket.onMessage (ApiSocket.onMessage st0 "update" 1) "update" 2) "update" 7
      = [(2, 7)] :=
  (onMessage_last_wins st0 "update" 1 2 7 (by decide)).1

/-- Claim C10: the session `rpc` shape has no precondition guard: with a null
socket, or a socket but null encryption context, it fails with the runtime
null-dereference (TypeError) before emitting anything — an error distinct from
the descriptive precondition errors `daemonRpc` throws. -/
theorem rpc_unguarded_preconditions {V L H : Type} (st : ApiSocketState V L H)
    (server : RpcRequest V → RpcResult V) (sessionId method : String) (params : V) :
    (st.socket = none →
      ApiSocket.rpc st server sessionId method params = (.error .typeError, [])) ∧
    (∀ sk, st.socket = some sk → st.encryption = none →
      ApiSocket.rpc st server sessionId method params = (.error .typeError, [])) ∧
    JsError.typeError ≠ JsError.thrown "Socket not connected" ∧
    JsError.typeError ≠ JsError.thrown "Encryption not initialized" := by
  refine ⟨?_, ?_, by decide, by decide⟩
  · intro h
    simp [ApiSocket.rpc, h]
  · intro sk h he
    simp [ApiSocket.rpc, h, he]

/-- Witness for C10 at the concrete not-connected and not-initialized states. -/
theorem rpc_unguarded_preconditions_witness :
    ApiSocket.rpc stNoSock serverOk0 "s1" "ping" 41 = (.error .typeError, []) ∧
    ApiSocket.rpc stNoEnc serverOk0 "s1" "ping" 41 = (.error .typeError, []) :=
  ⟨(rpc_unguarded_preconditions stNoSock serverOk0 "s1" "ping" 41).1 rfl,
    (rpc_unguarded_preconditions stNoEnc serverOk0 "s1" "ping" 41).2.1
      { recovered := false } rfl rfl⟩

end Happy
